import Mathlib

/-!
# linux_sense: property store, event listener and module life cycle

A shallow embedding of `src/linux_sense.c`.

* C `int` values are modelled as `Int`.  The property handlers only compare and
  copy them, so no arithmetic can overflow; every statement below that holds for
  all of `Int` holds in particular for the 32-bit range.
* A C function that writes through a pointer returns the written object next to
  its return value (explicit state passing).
* Calls into the kernel whose result the driver cannot predict take that result
  as an argument (`ProbeEnv`, `Outcomes`).
-/

namespace LinuxSense

/-! ## Kernel constants used by the driver -/

/-- Errno `ENOMEM` of the kernel (errno-base.h). -/
def ENOMEM : Int := 12

/-- Errno `ENODEV` of the kernel (errno-base.h). -/
def ENODEV : Int := 19

/-- Errno `EINVAL` of the kernel (errno-base.h). -/
def EINVAL : Int := 22

/-- Largest errno an error pointer can carry (linux/err.h). -/
def MAX_ERRNO : Int := 4095

/-- Event code of the turbo key, `#define ACPI_EVENT_TURBO_KEY 0xBC`. -/
def ACPI_EVENT_TURBO_KEY : Nat := 0xBC

/-- The enumerators of `enum power_supply_property` that the two `switch`
statements of the driver name.  Every other enumerator (or any other integer a
caller passes as the kind) is `other`, carrying its numeric code; it is the
`default:` label of both switches. -/
inductive power_supply_property where
  | POWER_SUPPLY_PROP_CHARGE_TYPE
  | POWER_SUPPLY_PROP_CHARGE_CONTROL_END_THRESHOLD
  | POWER_SUPPLY_PROP_CALIBRATE
  | other (code : Nat)
  deriving DecidableEq, Repr

open power_supply_property

/-! ## Property store -/

/-- The record `struct power_data`.  `psy` is the pointer the power-supply
framework returned, read as a signed long. -/
structure power_data where
  psy : Int
  usb_power_off_charge : Int
  charge_mode : Bool
  calibration_mode : Bool
  deriving DecidableEq, Repr

/-- Conversion of a C `bool` to `int`. -/
def bool_to_int (b : Bool) : Int := if b then 1 else 0

/-- The C expression `!!v` on an `int`. -/
def int_to_bool (v : Int) : Bool := decide (v ≠ 0)

/-- What `supply_get_property` leaves behind: its return value, the content of
`val->intval` and the driver data. -/
structure GetResult where
  ret : Int
  intval : Int
  data : power_data
  deriving DecidableEq, Repr

/-- What `supply_set_property` leaves behind: its return value and the driver
data. -/
structure SetResult where
  ret : Int
  data : power_data
  deriving DecidableEq, Repr

/-- The function `supply_get_property`.  `val` is the content of `val->intval`
before the call; the `default:` branch returns before writing it. -/
def supply_get_property (data : power_data) (psp : power_supply_property) (val : Int) :
    GetResult :=
  match psp with
  | POWER_SUPPLY_PROP_CHARGE_TYPE =>
      { ret := 0, intval := data.usb_power_off_charge, data := data }
  | POWER_SUPPLY_PROP_CHARGE_CONTROL_END_THRESHOLD =>
      { ret := 0, intval := bool_to_int data.charge_mode, data := data }
  | POWER_SUPPLY_PROP_CALIBRATE =>
      { ret := 0, intval := bool_to_int data.calibration_mode, data := data }
  | other _ =>
      { ret := -EINVAL, intval := val, data := data }

/-- The function `supply_set_property`.  `val` is `val->intval`. -/
def supply_set_property (data : power_data) (psp : power_supply_property) (val : Int) :
    SetResult :=
  match psp with
  | POWER_SUPPLY_PROP_CHARGE_TYPE =>
      if val = 0 ∨ val = 10 ∨ val = 20 ∨ val = 30 then
        { ret := 0, data := { data with usb_power_off_charge := val } }
      else
        { ret := -EINVAL, data := data }
  | POWER_SUPPLY_PROP_CHARGE_CONTROL_END_THRESHOLD =>
      { ret := 0, data := { data with charge_mode := int_to_bool val } }
  | POWER_SUPPLY_PROP_CALIBRATE =>
      { ret := 0, data := { data with calibration_mode := int_to_bool val } }
  | other _ =>
      { ret := -EINVAL, data := data }

/-! ## Event listener -/

/-- Actions an event can start.  The only one the source names is the thermal
profile change of the turbo key. -/
inductive Hook where
  | thermal_profile_change
  deriving DecidableEq, Repr

/-- What the notification handler could touch: the driver data and the sequence
of hooks started so far. -/
structure DriverState where
  data : power_data
  hooks : List Hook
  deriving DecidableEq, Repr

/-- The function `acpi_event_notify`.  It returns `void`.  The body of its only
`if` holds nothing but the commented-out call `thermal_profile_change()`, so both
branches leave the state as it is. -/
def acpi_event_notify (event : Nat) (s : DriverState) : DriverState :=
  if event = ACPI_EVENT_TURBO_KEY then
    s
  else
    s

/-- One call the kernel can make into the registered driver. -/
inductive Call where
  | set (psp : power_supply_property) (val : Int)
  | get (psp : power_supply_property) (val : Int)
  | notify (event : Nat)
  deriving DecidableEq, Repr

/-- The effect of one call on the driver state; return values are dropped, so a
failing call is a step like any other. -/
def step (s : DriverState) : Call → DriverState
  | Call.set psp val => { s with data := (supply_set_property s.data psp val).data }
  | Call.get psp val => { s with data := (supply_get_property s.data psp val).data }
  | Call.notify event => acpi_event_notify event s

/-- The effect of a finite sequence of calls, first call first. -/
def run (s : DriverState) (calls : List Call) : DriverState :=
  calls.foldl step s

/-- The permitted charge types. -/
def charge_type_ok (v : Int) : Prop := v = 0 ∨ v = 10 ∨ v = 20 ∨ v = 30

instance (v : Int) : Decidable (charge_type_ok v) := by
  unfold charge_type_ok; infer_instance

/-! ## Probe -/

/-- The cast `(int)` applied to a `long`: reduction to the signed 32-bit range. -/
def long_to_int (x : Int) : Int := (x + 2 ^ 31) % 2 ^ 32 - 2 ^ 31

/-- The kernel helper `IS_ERR` on a pointer read as a signed long: the top
`MAX_ERRNO` addresses encode errors. -/
def IS_ERR (ptr : Int) : Bool := decide (-MAX_ERRNO ≤ ptr ∧ ptr < 0)

/-- The kernel helper `PTR_ERR`. -/
def PTR_ERR (ptr : Int) : Int := ptr

/-- Results of the two kernel calls of `power_supply_init`: whether
`devm_kzalloc` returns memory, and the pointer `devm_power_supply_register`
returns (read as a signed long). -/
structure ProbeEnv where
  kzalloc_ok : Bool
  psy : Int
  deriving DecidableEq, Repr

/-- The part of `struct platform_device` the driver uses: the device-managed
block holding the `power_data`, and whether the driver data pointer was set to
it by `platform_set_drvdata`. -/
structure platform_device where
  devres : Option power_data
  drvdata : Bool
  deriving DecidableEq, Repr

/-- The function `power_supply_init`. -/
def power_supply_init (env : ProbeEnv) (device : platform_device) : Int × platform_device :=
  if !env.kzalloc_ok then
    (-ENOMEM, device)
  else
    let data : power_data :=
      { psy := 0, usb_power_off_charge := 0x00, charge_mode := false,
        calibration_mode := false }
    let data := { data with psy := env.psy }
    if IS_ERR data.psy then
      (long_to_int (PTR_ERR data.psy), { device with devres := some data })
    else
      (0, { devres := some data, drvdata := true })

/-- The function `power_supply_destroy`: it only writes a log line. -/
def power_supply_destroy (device : platform_device) : platform_device := device

/-- The function `platform_probe`. -/
def platform_probe (env : ProbeEnv) (device : platform_device) : Int × platform_device :=
  let r := power_supply_init env device
  let err := r.1
  if err ≠ 0 then
    (0, power_supply_destroy r.2)
  else
    (0, r.2)

/-! ## Module initialisation -/

/-- Kernel calls of `wmi_init` that register or release something. -/
inductive PlatformCall where
  | acpi_bus_register_driver
  | acpi_bus_unregister_driver
  | platform_driver_register
  | platform_driver_unregister
  | platform_device_alloc
  | platform_device_add
  | platform_device_put
  deriving DecidableEq, Repr

/-- What is registered with the kernel, and the calls made so far (oldest
first). -/
structure Platform where
  acpi_driver : Bool
  platform_driver : Bool
  device_allocated : Bool
  device_added : Bool
  calls : List PlatformCall
  deriving DecidableEq, Repr

/-- Nothing registered, no call made. -/
def Platform.unloaded : Platform :=
  { acpi_driver := false, platform_driver := false, device_allocated := false,
    device_added := false, calls := [] }

/-- Results the kernel gives to the calls of `wmi_init`: presence of the two
GUIDs, return values of the three registrations, and whether the device
allocation returns memory. -/
structure Outcomes where
  has_guid1 : Bool
  has_guid2 : Bool
  acpi_register : Int
  driver_register : Int
  device_alloc : Bool
  device_add : Int
  deriving DecidableEq, Repr

/-- Kernel side of `acpi_bus_register_driver` returning `r`: the driver is
registered exactly when the call returns 0. -/
def acpi_bus_register_driver (r : Int) (p : Platform) : Platform :=
  { p with acpi_driver := p.acpi_driver || decide (r = 0),
           calls := p.calls ++ [PlatformCall.acpi_bus_register_driver] }

/-- Kernel side of `acpi_bus_unregister_driver`. -/
def acpi_bus_unregister_driver (p : Platform) : Platform :=
  { p with acpi_driver := false,
           calls := p.calls ++ [PlatformCall.acpi_bus_unregister_driver] }

/-- Kernel side of `platform_driver_register` returning `r`. -/
def platform_driver_register (r : Int) (p : Platform) : Platform :=
  { p with platform_driver := p.platform_driver || decide (r = 0),
           calls := p.calls ++ [PlatformCall.platform_driver_register] }

/-- Kernel side of `platform_driver_unregister`. -/
def platform_driver_unregister (p : Platform) : Platform :=
  { p with platform_driver := false,
           calls := p.calls ++ [PlatformCall.platform_driver_unregister] }

/-- Kernel side of `platform_device_alloc`; `ok` says whether it returns a
device. -/
def platform_device_alloc (ok : Bool) (p : Platform) : Platform :=
  { p with device_allocated := p.device_allocated || ok,
           calls := p.calls ++ [PlatformCall.platform_device_alloc] }

/-- Kernel side of `platform_device_add` returning `r`. -/
def platform_device_add (r : Int) (p : Platform) : Platform :=
  { p with device_added := p.device_added || decide (r = 0),
           calls := p.calls ++ [PlatformCall.platform_device_add] }

/-- Kernel side of `platform_device_put` on a device that was never added: the
last reference goes and the device is freed. -/
def platform_device_put (p : Platform) : Platform :=
  { p with device_allocated := false,
           calls := p.calls ++ [PlatformCall.platform_device_put] }

/-- The function `acpi_event_init`; `r` is what `acpi_bus_register_driver`
returns. -/
def acpi_event_init (r : Int) (p : Platform) : Int × Platform :=
  let ret := r
  let p := acpi_bus_register_driver r p
  if ret < 0 then
    (ret, p)
  else
    (0, p)

/-- The function `acpi_event_destroy`. -/
def acpi_event_destroy (p : Platform) : Platform :=
  acpi_bus_unregister_driver p

/-- The function `wmi_init`. -/
def wmi_init (o : Outcomes) (p : Platform) : Int × Platform :=
  if !o.has_guid1 && !o.has_guid2 then
    (-ENODEV, p)
  else
    let r := acpi_event_init o.acpi_register p
    let err := r.1
    let p := r.2
    if err ≠ 0 then
      (err, p)
    else
      let err := o.driver_register
      let p := platform_driver_register o.driver_register p
      if err ≠ 0 then
        let p := acpi_event_destroy p
        (err, p)
      else
        let p := platform_device_alloc o.device_alloc p
        if !o.device_alloc then
          let p := platform_driver_unregister p
          let p := acpi_event_destroy p
          (-ENOMEM, p)
        else
          let err := o.device_add
          let p := platform_device_add o.device_add p
          if err ≠ 0 then
            let p := platform_device_put p
            let p := platform_driver_unregister p
            let p := acpi_event_destroy p
            (err, p)
          else
            (0, p)

/-! ## Vocabulary for the rollback chain

These definitions describe the kernel side and the order of the initialisation
steps; they are what the rollback theorem compares `wmi_init` with. -/

/-- The steps of module initialisation, in the order `wmi_init` takes them. -/
inductive InitStep where
  | detect
  | acpi_register
  | driver_register
  | device_alloc
  | device_add
  deriving DecidableEq, Repr

/-- The first step the kernel refuses under the outcomes `o` (a registration is
refused when its return value is not 0), or `none` when every step goes
through. -/
def firstFailure (o : Outcomes) : Option InitStep :=
  if o.has_guid1 = false ∧ o.has_guid2 = false then some InitStep.detect
  else if o.acpi_register ≠ 0 then some InitStep.acpi_register
  else if o.driver_register ≠ 0 then some InitStep.driver_register
  else if o.device_alloc = false then some InitStep.device_alloc
  else if o.device_add ≠ 0 then some InitStep.device_add
  else none

/-- The error a refused step yields. -/
def stepError (o : Outcomes) : InitStep → Int
  | InitStep.detect => -ENODEV
  | InitStep.acpi_register => o.acpi_register
  | InitStep.driver_register => o.driver_register
  | InitStep.device_alloc => -ENOMEM
  | InitStep.device_add => o.device_add

/-- The steps that hold something once completed, listed in order of completion,
before the given step is tried. -/
def completedBefore : InitStep → List InitStep
  | InitStep.detect => []
  | InitStep.acpi_register => []
  | InitStep.driver_register => [InitStep.acpi_register]
  | InitStep.device_alloc => [InitStep.acpi_register, InitStep.driver_register]
  | InitStep.device_add =>
      [InitStep.acpi_register, InitStep.driver_register, InitStep.device_alloc]

/-- The kernel call that carries out a step (detection makes none). -/
def doCall : InitStep → List PlatformCall
  | InitStep.detect => []
  | InitStep.acpi_register => [PlatformCall.acpi_bus_register_driver]
  | InitStep.driver_register => [PlatformCall.platform_driver_register]
  | InitStep.device_alloc => [PlatformCall.platform_device_alloc]
  | InitStep.device_add => [PlatformCall.platform_device_add]

/-- The kernel call that undoes a completed step. -/
def undoCall : InitStep → List PlatformCall
  | InitStep.detect => []
  | InitStep.acpi_register => [PlatformCall.acpi_bus_unregister_driver]
  | InitStep.driver_register => [PlatformCall.platform_driver_unregister]
  | InitStep.device_alloc => [PlatformCall.platform_device_put]
  | InitStep.device_add => []

/-- The calls of a start-up that is refused at `s` and rolls back strictly:
the completed steps in order, the refused call, then the undo calls of the
completed steps in reverse order of completion. -/
def rollbackTrace (s : InitStep) : List PlatformCall :=
  (completedBefore s).flatMap doCall ++ doCall s ++
    (completedBefore s).reverse.flatMap undoCall

/-! ## Property store: theorems -/

/-- The errno both handlers negate is not 0, so neither is their error value. -/
lemma EINVAL_ne_zero : EINVAL ≠ 0 := by decide

/-- Claim C1: for every driver data and every `v` among 0, 10, 20, 30, setting
the charge type to `v` returns 0, and reading the charge type afterwards returns
0 and yields `v`. -/
theorem charge_type_set_then_get (s : power_data) (v val0 : Int)
    (hv : v = 0 ∨ v = 10 ∨ v = 20 ∨ v = 30) :
    (supply_set_property s POWER_SUPPLY_PROP_CHARGE_TYPE v).ret = 0 ∧
    (supply_get_property (supply_set_property s POWER_SUPPLY_PROP_CHARGE_TYPE v).data
        POWER_SUPPLY_PROP_CHARGE_TYPE val0).ret = 0 ∧
    (supply_get_property (supply_set_property s POWER_SUPPLY_PROP_CHARGE_TYPE v).data
        POWER_SUPPLY_PROP_CHARGE_TYPE val0).intval = v := by
  simp [supply_set_property, supply_get_property, hv]

/-- The accepted write at a concrete input: `v = 20` on a record holding 10. -/
theorem charge_type_set_then_get_witness :
    (supply_set_property ⟨4096, 10, true, false⟩ POWER_SUPPLY_PROP_CHARGE_TYPE 20).ret = 0 ∧
    (supply_get_property
        (supply_set_property ⟨4096, 10, true, false⟩ POWER_SUPPLY_PROP_CHARGE_TYPE 20).data
        POWER_SUPPLY_PROP_CHARGE_TYPE 7).ret = 0 ∧
    (supply_get_property
        (supply_set_property ⟨4096, 10, true, false⟩ POWER_SUPPLY_PROP_CHARGE_TYPE 20).data
        POWER_SUPPLY_PROP_CHARGE_TYPE 7).intval = 20 :=
  charge_type_set_then_get ⟨4096, 10, true, false⟩ 20 7 (by decide)

/-- Claim C2: for every driver data and every integer `v` outside 0, 10, 20, 30
(so for every such 32-bit value), setting the charge type to `v` returns
`-EINVAL`, which is not 0, leaves the whole record as it was, and a following
read of the charge type succeeds with the value held before. -/
theorem charge_type_set_rejects (s : power_data) (v val0 : Int)
    (hv : ¬ (v = 0 ∨ v = 10 ∨ v = 20 ∨ v = 30)) :
    (supply_set_property s POWER_SUPPLY_PROP_CHARGE_TYPE v).ret = -EINVAL ∧
    (supply_set_property s POWER_SUPPLY_PROP_CHARGE_TYPE v).ret ≠ 0 ∧
    (supply_set_property s POWER_SUPPLY_PROP_CHARGE_TYPE v).data = s ∧
    (supply_get_property (supply_set_property s POWER_SUPPLY_PROP_CHARGE_TYPE v).data
        POWER_SUPPLY_PROP_CHARGE_TYPE val0).ret = 0 ∧
    (supply_get_property (supply_set_property s POWER_SUPPLY_PROP_CHARGE_TYPE v).data
        POWER_SUPPLY_PROP_CHARGE_TYPE val0).intval = s.usb_power_off_charge := by
  simp [supply_set_property, supply_get_property, hv, EINVAL_ne_zero]

/-- The rejected write at a concrete input: `v = 15` on a record holding 10. -/
theorem charge_type_set_rejects_witness :
    (supply_set_property ⟨4096, 10, true, false⟩ POWER_SUPPLY_PROP_CHARGE_TYPE 15).ret
      = -EINVAL ∧
    (supply_set_property ⟨4096, 10, true, false⟩ POWER_SUPPLY_PROP_CHARGE_TYPE 15).ret ≠ 0 ∧
    (supply_set_property ⟨4096, 10, true, false⟩ POWER_SUPPLY_PROP_CHARGE_TYPE 15).data
      = ⟨4096, 10, true, false⟩ ∧
    (supply_get_property
        (supply_set_property ⟨4096, 10, true, false⟩ POWER_SUPPLY_PROP_CHARGE_TYPE 15).data
        POWER_SUPPLY_PROP_CHARGE_TYPE 7).ret = 0 ∧
    (supply_get_property
        (supply_set_property ⟨4096, 10, true, false⟩ POWER_SUPPLY_PROP_CHARGE_TYPE 15).data
        POWER_SUPPLY_PROP_CHARGE_TYPE 7).intval = 10 :=
  charge_type_set_rejects ⟨4096, 10, true, false⟩ 15 7 (by decide)

/-- Claim C3: for the kinds charge-control-end-threshold and calibrate, every
driver data and every integer `v` (negative ones included), the write returns 0
and a following read of the same kind returns 0 and yields 1 when `v` is not 0
and 0 when `v` is 0. -/
theorem boolean_kinds_set_then_get (s : power_data) (v val0 : Int) :
    ((supply_set_property s POWER_SUPPLY_PROP_CHARGE_CONTROL_END_THRESHOLD v).ret = 0 ∧
     (supply_get_property
        (supply_set_property s POWER_SUPPLY_PROP_CHARGE_CONTROL_END_THRESHOLD v).data
        POWER_SUPPLY_PROP_CHARGE_CONTROL_END_THRESHOLD val0).ret = 0 ∧
     (supply_get_property
        (supply_set_property s POWER_SUPPLY_PROP_CHARGE_CONTROL_END_THRESHOLD v).data
        POWER_SUPPLY_PROP_CHARGE_CONTROL_END_THRESHOLD val0).intval
       = if v = 0 then 0 else 1) ∧
    ((supply_set_property s POWER_SUPPLY_PROP_CALIBRATE v).ret = 0 ∧
     (supply_get_property (supply_set_property s POWER_SUPPLY_PROP_CALIBRATE v).data
        POWER_SUPPLY_PROP_CALIBRATE val0).ret = 0 ∧
     (supply_get_property (supply_set_property s POWER_SUPPLY_PROP_CALIBRATE v).data
        POWER_SUPPLY_PROP_CALIBRATE val0).intval
       = if v = 0 then 0 else 1) := by
  by_cases h : v = 0 <;>
    simp [supply_set_property, supply_get_property, int_to_bool, bool_to_int, h]

/-- Claim C4: for every kind other than the three the driver knows, every driver
data and every value, both handlers return the error `-EINVAL` (not 0), the
record is left as it was, and the read does not write its output. -/
theorem unknown_kind_fails (psp : power_supply_property) (s : power_data) (v val0 : Int)
    (h1 : psp ≠ POWER_SUPPLY_PROP_CHARGE_TYPE)
    (h2 : psp ≠ POWER_SUPPLY_PROP_CHARGE_CONTROL_END_THRESHOLD)
    (h3 : psp ≠ POWER_SUPPLY_PROP_CALIBRATE) :
    ((supply_get_property s psp val0).ret = -EINVAL ∧
     (supply_get_property s psp val0).ret ≠ 0 ∧
     (supply_get_property s psp val0).data = s ∧
     (supply_get_property s psp val0).intval = val0) ∧
    ((supply_set_property s psp v).ret = -EINVAL ∧
     (supply_set_property s psp v).ret ≠ 0 ∧
     (supply_set_property s psp v).data = s) := by
  cases psp with
  | POWER_SUPPLY_PROP_CHARGE_TYPE => exact absurd rfl h1
  | POWER_SUPPLY_PROP_CHARGE_CONTROL_END_THRESHOLD => exact absurd rfl h2
  | POWER_SUPPLY_PROP_CALIBRATE => exact absurd rfl h3
  | other code => simp [supply_get_property, supply_set_property, EINVAL_ne_zero]

/-- The unknown-kind failure at a concrete input: the kind with code 0. -/
theorem unknown_kind_fails_witness :
    ((supply_get_property ⟨4096, 10, true, false⟩ (other 0) 7).ret = -EINVAL ∧
     (supply_get_property ⟨4096, 10, true, false⟩ (other 0) 7).ret ≠ 0 ∧
     (supply_get_property ⟨4096, 10, true, false⟩ (other 0) 7).data
       = ⟨4096, 10, true, false⟩ ∧
     (supply_get_property ⟨4096, 10, true, false⟩ (other 0) 7).intval = 7) ∧
    ((supply_set_property ⟨4096, 10, true, false⟩ (other 0) 20).ret = -EINVAL ∧
     (supply_set_property ⟨4096, 10, true, false⟩ (other 0) 20).ret ≠ 0 ∧
     (supply_set_property ⟨4096, 10, true, false⟩ (other 0) 20).data
       = ⟨4096, 10, true, false⟩) :=
  unknown_kind_fails (other 0) ⟨4096, 10, true, false⟩ 20 7
    (by decide) (by decide) (by decide)

/-- Counterexample to claim C8 as stated: on the same driver data, a write to the unknown
kind with code 0 and a write of 15 to the charge type return the same value, so
it is not the case that the two return values differ. -/
theorem unknown_kind_error_not_distinct :
    ¬ ((supply_set_property ⟨4096, 0, false, false⟩ (other 0) 0).ret
        ≠ (supply_set_property ⟨4096, 0, false, false⟩ POWER_SUPPLY_PROP_CHARGE_TYPE 15).ret) := by
  decide

/-- Claim C8, amended: a write to an unknown kind and a write of a value outside
0, 10, 20, 30 to the charge type return the same error value, `-EINVAL`; it
differs from the success value 0 but not between the two failures. -/
theorem unknown_kind_error_same_as_invalid (psp : power_supply_property)
    (s t : power_data) (v w : Int)
    (h1 : psp ≠ POWER_SUPPLY_PROP_CHARGE_TYPE)
    (h2 : psp ≠ POWER_SUPPLY_PROP_CHARGE_CONTROL_END_THRESHOLD)
    (h3 : psp ≠ POWER_SUPPLY_PROP_CALIBRATE)
    (hw : ¬ (w = 0 ∨ w = 10 ∨ w = 20 ∨ w = 30)) :
    (supply_set_property s psp v).ret = -EINVAL ∧
    (supply_set_property t POWER_SUPPLY_PROP_CHARGE_TYPE w).ret = -EINVAL ∧
    (supply_set_property s psp v).ret
      = (supply_set_property t POWER_SUPPLY_PROP_CHARGE_TYPE w).ret ∧
    (supply_set_property s psp v).ret ≠ 0 := by
  cases psp with
  | POWER_SUPPLY_PROP_CHARGE_TYPE => exact absurd rfl h1
  | POWER_SUPPLY_PROP_CHARGE_CONTROL_END_THRESHOLD => exact absurd rfl h2
  | POWER_SUPPLY_PROP_CALIBRATE => exact absurd rfl h3
  | other code => simp [supply_set_property, hw, EINVAL_ne_zero]

/-- The shared error value at a concrete input: the kind with code 3 and the
charge-type value -1. -/
theorem unknown_kind_error_same_as_invalid_witness :
    (supply_set_property ⟨4096, 10, true, false⟩ (other 3) 1).ret = -EINVAL ∧
    (supply_set_property ⟨8192, 30, false, true⟩ POWER_SUPPLY_PROP_CHARGE_TYPE (-1)).ret
      = -EINVAL ∧
    (supply_set_property ⟨4096, 10, true, false⟩ (other 3) 1).ret
      = (supply_set_property ⟨8192, 30, false, true⟩ POWER_SUPPLY_PROP_CHARGE_TYPE (-1)).ret ∧
    (supply_set_property ⟨4096, 10, true, false⟩ (other 3) 1).ret ≠ 0 :=
  unknown_kind_error_same_as_invalid (other 3) ⟨4096, 10, true, false⟩
    ⟨8192, 30, false, true⟩ 1 (-1) (by decide) (by decide) (by decide) (by decide)

/-- Claim C10: a write of the charge type leaves `charge_mode` and
`calibration_mode` (and `psy`) as they were, a write of the
charge-control-end-threshold leaves `usb_power_off_charge` and
`calibration_mode` as they were, a write of calibrate leaves
`usb_power_off_charge` and `charge_mode` as they were, whether or not the write
succeeds; a read of any kind leaves the whole record as it was. -/
theorem set_get_frame (s : power_data) (psp : power_supply_property) (v val0 : Int) :
    ((supply_set_property s POWER_SUPPLY_PROP_CHARGE_TYPE v).data.charge_mode = s.charge_mode ∧
     (supply_set_property s POWER_SUPPLY_PROP_CHARGE_TYPE v).data.calibration_mode
       = s.calibration_mode ∧
     (supply_set_property s POWER_SUPPLY_PROP_CHARGE_TYPE v).data.psy = s.psy) ∧
    ((supply_set_property s POWER_SUPPLY_PROP_CHARGE_CONTROL_END_THRESHOLD v).data.usb_power_off_charge
       = s.usb_power_off_charge ∧
     (supply_set_property s POWER_SUPPLY_PROP_CHARGE_CONTROL_END_THRESHOLD v).data.calibration_mode
       = s.calibration_mode ∧
     (supply_set_property s POWER_SUPPLY_PROP_CHARGE_CONTROL_END_THRESHOLD v).data.psy = s.psy) ∧
    ((supply_set_property s POWER_SUPPLY_PROP_CALIBRATE v).data.usb_power_off_charge
       = s.usb_power_off_charge ∧
     (supply_set_property s POWER_SUPPLY_PROP_CALIBRATE v).data.charge_mode = s.charge_mode ∧
     (supply_set_property s POWER_SUPPLY_PROP_CALIBRATE v).data.psy = s.psy) ∧
    (supply_get_property s psp val0).data = s := by
  refine ⟨?_, ?_, ?_, ?_⟩
  · unfold supply_set_property
    split_ifs <;> simp
  · simp [supply_set_property]
  · simp [supply_set_property]
  · cases psp <;> rfl

/-! ## Event listener and reachable states: theorems -/

/-- Claim C9: for every event code (so for every unsigned 32-bit one), the turbo
key 0xBC included, the notification handler returns the state it was given: the
driver data is unchanged and no hook is started.  The handler returns `void` and
is total, so it cannot report an error. -/
theorem acpi_event_notify_noop (event : Nat) (s : DriverState) :
    acpi_event_notify event s = s ∧
    (acpi_event_notify event s).data = s.data ∧
    (acpi_event_notify event s).hooks = s.hooks ∧
    (acpi_event_notify ACPI_EVENT_TURBO_KEY s).data = s.data := by
  simp [acpi_event_notify]

/-- A write keeps the charge type among the permitted values. -/
lemma supply_set_property_keeps_charge_type (s : power_data) (psp : power_supply_property)
    (v : Int) (h : charge_type_ok s.usb_power_off_charge) :
    charge_type_ok (supply_set_property s psp v).data.usb_power_off_charge := by
  cases psp with
  | POWER_SUPPLY_PROP_CHARGE_TYPE =>
      unfold supply_set_property
      split_ifs with hv
      · exact hv
      · exact h
  | POWER_SUPPLY_PROP_CHARGE_CONTROL_END_THRESHOLD => exact h
  | POWER_SUPPLY_PROP_CALIBRATE => exact h
  | other code => exact h

/-- A read returns the record it was given. -/
lemma supply_get_property_data (s : power_data) (psp : power_supply_property) (val : Int) :
    (supply_get_property s psp val).data = s := by
  cases psp <;> rfl

/-- Every call keeps the charge type among the permitted values. -/
lemma step_keeps_charge_type (s : DriverState) (c : Call)
    (h : charge_type_ok s.data.usb_power_off_charge) :
    charge_type_ok (step s c).data.usb_power_off_charge := by
  cases c with
  | set psp val => exact supply_set_property_keeps_charge_type s.data psp val h
  | get psp val =>
      show charge_type_ok (supply_get_property s.data psp val).data.usb_power_off_charge
      rw [supply_get_property_data]
      exact h
  | notify event =>
      show charge_type_ok (acpi_event_notify event s).data.usb_power_off_charge
      simpa [acpi_event_notify] using h

/-- Every sequence of calls keeps the charge type among the permitted values. -/
lemma run_keeps_charge_type (calls : List Call) (s : DriverState)
    (h : charge_type_ok s.data.usb_power_off_charge) :
    charge_type_ok (run s calls).data.usb_power_off_charge := by
  induction calls generalizing s with
  | nil => exact h
  | cons c cs ih => exact ih (step s c) (step_keeps_charge_type s c h)

/-- The record a successful `power_supply_init` attaches to the device. -/
lemma power_supply_init_data (env : ProbeEnv) (dev0 dev : platform_device) (d : power_data)
    (hinit : power_supply_init env dev0 = (0, dev)) (hd : dev.devres = some d) :
    d = { psy := env.psy, usb_power_off_charge := 0, charge_mode := false,
          calibration_mode := false } := by
  unfold power_supply_init at hinit
  dsimp only at hinit
  split_ifs at hinit with hk he
  · have h0 := congrArg Prod.fst hinit
    simp [ENOMEM] at h0
  · have h0 := congrArg Prod.fst hinit
    simp only [IS_ERR, MAX_ERRNO, decide_eq_true_eq] at he
    simp only [PTR_ERR, long_to_int] at h0
    omega
  · have h1 := congrArg Prod.snd hinit
    simp only at h1
    rw [← h1] at hd
    simp only [Option.some.injEq] at hd
    exact hd.symm

/-- Claim C5: the record a successful `power_supply_init` creates holds charge
type 0 and both modes false, and after any finite sequence of property writes,
property reads and event notifications on it, with arbitrary kinds, values and
event codes, failing calls included, `usb_power_off_charge` is one of 0, 10, 20,
30. -/
theorem charge_type_invariant (env : ProbeEnv) (dev0 dev : platform_device) (d : power_data)
    (hooks : List Hook) (calls : List Call)
    (hinit : power_supply_init env dev0 = (0, dev)) (hd : dev.devres = some d) :
    (d.usb_power_off_charge = 0 ∧ d.charge_mode = false ∧ d.calibration_mode = false) ∧
    ((run ⟨d, hooks⟩ calls).data.usb_power_off_charge = 0 ∨
     (run ⟨d, hooks⟩ calls).data.usb_power_off_charge = 10 ∨
     (run ⟨d, hooks⟩ calls).data.usb_power_off_charge = 20 ∨
     (run ⟨d, hooks⟩ calls).data.usb_power_off_charge = 30) := by
  have hdata := power_supply_init_data env dev0 dev d hinit hd
  subst hdata
  refine ⟨⟨rfl, rfl, rfl⟩, ?_⟩
  exact run_keeps_charge_type calls _ (Or.inl rfl)

/-- The invariant at a concrete run: a probe that succeeds, followed by a
rejected write, accepted writes, a turbo-key event, a read and a write to an
unknown kind. -/
theorem charge_type_invariant_witness :
    ((⟨4096, 0, false, false⟩ : power_data).usb_power_off_charge = 0 ∧
      (⟨4096, 0, false, false⟩ : power_data).charge_mode = false ∧
      (⟨4096, 0, false, false⟩ : power_data).calibration_mode = false) ∧
    ((run ⟨⟨4096, 0, false, false⟩, []⟩
        [Call.set POWER_SUPPLY_PROP_CHARGE_TYPE 15, Call.set POWER_SUPPLY_PROP_CHARGE_TYPE 20,
         Call.set POWER_SUPPLY_PROP_CALIBRATE (-3), Call.notify 0xBC,
         Call.get POWER_SUPPLY_PROP_CHARGE_TYPE 7,
         Call.set (other 3) 5]).data.usb_power_off_charge = 0 ∨
     (run ⟨⟨4096, 0, false, false⟩, []⟩
        [Call.set POWER_SUPPLY_PROP_CHARGE_TYPE 15, Call.set POWER_SUPPLY_PROP_CHARGE_TYPE 20,
         Call.set POWER_SUPPLY_PROP_CALIBRATE (-3), Call.notify 0xBC,
         Call.get POWER_SUPPLY_PROP_CHARGE_TYPE 7,
         Call.set (other 3) 5]).data.usb_power_off_charge = 10 ∨
     (run ⟨⟨4096, 0, false, false⟩, []⟩
        [Call.set POWER_SUPPLY_PROP_CHARGE_TYPE 15, Call.set POWER_SUPPLY_PROP_CHARGE_TYPE 20,
         Call.set POWER_SUPPLY_PROP_CALIBRATE (-3), Call.notify 0xBC,
         Call.get POWER_SUPPLY_PROP_CHARGE_TYPE 7,
         Call.set (other 3) 5]).data.usb_power_off_charge = 20 ∨
     (run ⟨⟨4096, 0, false, false⟩, []⟩
        [Call.set POWER_SUPPLY_PROP_CHARGE_TYPE 15, Call.set POWER_SUPPLY_PROP_CHARGE_TYPE 20,
         Call.set POWER_SUPPLY_PROP_CALIBRATE (-3), Call.notify 0xBC,
         Call.get POWER_SUPPLY_PROP_CHARGE_TYPE 7,
         Call.set (other 3) 5]).data.usb_power_off_charge = 30) :=
  charge_type_invariant ⟨true, 4096⟩ ⟨none, false⟩ ⟨some ⟨4096, 0, false, false⟩, true⟩
    ⟨4096, 0, false, false⟩ []
    [Call.set POWER_SUPPLY_PROP_CHARGE_TYPE 15, Call.set POWER_SUPPLY_PROP_CHARGE_TYPE 20,
     Call.set POWER_SUPPLY_PROP_CALIBRATE (-3), Call.notify 0xBC,
     Call.get POWER_SUPPLY_PROP_CHARGE_TYPE 7, Call.set (other 3) 5]
    (by decide) rfl

/-! ## Probe: theorems -/

/-- Whatever `power_supply_init` returns, `platform_probe` returns 0. -/
lemma platform_probe_ret (env : ProbeEnv) (device : platform_device) :
    (platform_probe env device).1 = 0 := by
  unfold platform_probe
  dsimp only
  split_ifs <;> rfl

/-- Claim C6 fails on the code.  When `devm_kzalloc` returns no memory,
`power_supply_init` returns `-ENOMEM`, and when the power-supply registration
returns the error pointer for -16, `power_supply_init` returns -16; in both
cases `platform_probe` returns 0 to its caller. -/
theorem platform_probe_hides_failure :
    (power_supply_init ⟨false, 4096⟩ ⟨none, false⟩).1 = -ENOMEM ∧
    (platform_probe ⟨false, 4096⟩ ⟨none, false⟩).1 = 0 ∧
    (power_supply_init ⟨true, -16⟩ ⟨none, false⟩).1 = -16 ∧
    (platform_probe ⟨true, -16⟩ ⟨none, false⟩).1 = 0 := by
  decide

/-! ## Module initialisation: theorems -/

/-- The calls of a strict rollback, step by step. -/
lemma rollbackTrace_table :
    rollbackTrace InitStep.detect = [] ∧
    rollbackTrace InitStep.acpi_register = [PlatformCall.acpi_bus_register_driver] ∧
    rollbackTrace InitStep.driver_register =
      [PlatformCall.acpi_bus_register_driver, PlatformCall.platform_driver_register,
       PlatformCall.acpi_bus_unregister_driver] ∧
    rollbackTrace InitStep.device_alloc =
      [PlatformCall.acpi_bus_register_driver, PlatformCall.platform_driver_register,
       PlatformCall.platform_device_alloc,
       PlatformCall.platform_driver_unregister, PlatformCall.acpi_bus_unregister_driver] ∧
    rollbackTrace InitStep.device_add =
      [PlatformCall.acpi_bus_register_driver, PlatformCall.platform_driver_register,
       PlatformCall.platform_device_alloc, PlatformCall.platform_device_add,
       PlatformCall.platform_device_put,
       PlatformCall.platform_driver_unregister, PlatformCall.acpi_bus_unregister_driver] := by
  decide

/-- When every step goes through, `wmi_init` returns 0 with both drivers and
the device registered. -/
lemma wmi_init_success (o : Outcomes) (hfail : firstFailure o = none) :
    wmi_init o Platform.unloaded =
      (0, { acpi_driver := true, platform_driver := true, device_allocated := true,
            device_added := true,
            calls := [PlatformCall.acpi_bus_register_driver,
                      PlatformCall.platform_driver_register,
                      PlatformCall.platform_device_alloc,
                      PlatformCall.platform_device_add] }) := by
  obtain ⟨g1, g2, a, dr, al, ad⟩ := o
  simp only [firstFailure] at hfail
  split_ifs at hfail with h1 h2 h3 h4 h5
  simp only [not_not] at h2 h3 h5
  simp only [Bool.not_eq_false] at h4
  subst h2 h3 h5 h4
  cases g1 <;> cases g2 <;>
    simp_all [wmi_init, acpi_event_init, acpi_bus_register_driver, platform_driver_register,
      platform_device_alloc, platform_device_add, Platform.unloaded]

/-- Claim C7: start from a kernel with nothing registered, and let the kernel
answer each call of `wmi_init` freely, a registration being refused exactly when
it returns a nonzero value and `acpi_bus_register_driver` returning 0 or a
negative errno.  If `s` is the first step that is refused (neither GUID present,
ACPI driver registration, platform driver registration, device allocation,
device add), then `wmi_init` returns the error of that step, which is not 0
(`-ENODEV` for the detection, `-ENOMEM` for the allocation, the value the kernel
returned otherwise); the calls made are the completed steps, the refused call,
and the undo calls of the completed steps in reverse order of completion (none
at all for the detection); and on return neither driver is registered and no
device is allocated or added. -/
theorem wmi_init_rollback (o : Outcomes) (s : InitStep)
    (hacpi : o.acpi_register ≤ 0) (hfail : firstFailure o = some s) :
    wmi_init o Platform.unloaded =
      (stepError o s,
       { acpi_driver := false, platform_driver := false, device_allocated := false,
         device_added := false, calls := rollbackTrace s }) ∧
    stepError o s ≠ 0 := by
  obtain ⟨g1, g2, a, dr, al, ad⟩ := o
  simp only at hacpi
  simp only [firstFailure] at hfail
  split_ifs at hfail with h1 h2 h3 h4 h5
  · cases hfail
    obtain ⟨hg1, hg2⟩ := h1
    subst hg1 hg2
    refine ⟨?_, by simp [stepError, ENODEV]⟩
    simp [wmi_init, stepError, rollbackTrace, completedBefore, doCall, Platform.unloaded]
  · cases hfail
    have hneg : a < 0 := lt_of_le_of_ne hacpi h2
    refine ⟨?_, h2⟩
    cases g1 <;> cases g2 <;>
      simp_all [wmi_init, acpi_event_init, acpi_bus_register_driver, stepError, rollbackTrace,
        completedBefore, doCall, undoCall, Platform.unloaded]
  · cases hfail
    simp only [not_not] at h2
    subst h2
    refine ⟨?_, h3⟩
    cases g1 <;> cases g2 <;>
      simp_all [wmi_init, acpi_event_init, acpi_bus_register_driver, platform_driver_register,
        acpi_event_destroy, acpi_bus_unregister_driver, stepError, rollbackTrace,
        completedBefore, doCall, undoCall, Platform.unloaded]
  · cases hfail
    simp only [not_not] at h2 h3
    subst h2 h3 h4
    refine ⟨?_, by simp [stepError, ENOMEM]⟩
    cases g1 <;> cases g2 <;>
      simp_all [wmi_init, acpi_event_init, acpi_bus_register_driver, platform_driver_register,
        platform_device_alloc, platform_driver_unregister,
        acpi_event_destroy, acpi_bus_unregister_driver, stepError, rollbackTrace,
        completedBefore, doCall, undoCall, Platform.unloaded]
  · cases hfail
    simp only [not_not] at h2 h3
    simp only [Bool.not_eq_false] at h4
    subst h2 h3 h4
    refine ⟨?_, h5⟩
    cases g1 <;> cases g2 <;>
      simp_all [wmi_init, acpi_event_init, acpi_bus_register_driver, platform_driver_register,
        platform_device_alloc, platform_device_add, platform_device_put,
        platform_driver_unregister,
        acpi_event_destroy, acpi_bus_unregister_driver, stepError, rollbackTrace,
        completedBefore, doCall, undoCall, Platform.unloaded]

/-- The rollback at concrete kernel answers, one refusal per step: no GUID; the
ACPI registration returning -19; the platform driver registration returning -16;
the device allocation returning nothing; the device add returning -17. -/
theorem wmi_init_rollback_witness :
    wmi_init ⟨false, false, 0, 0, true, 0⟩ Platform.unloaded
      = (-ENODEV, ⟨false, false, false, false, []⟩) ∧
    wmi_init ⟨true, false, -19, 0, true, 0⟩ Platform.unloaded
      = (-19, ⟨false, false, false, false, [PlatformCall.acpi_bus_register_driver]⟩) ∧
    wmi_init ⟨false, true, 0, -16, true, 0⟩ Platform.unloaded
      = (-16, ⟨false, false, false, false,
          [PlatformCall.acpi_bus_register_driver, PlatformCall.platform_driver_register,
           PlatformCall.acpi_bus_unregister_driver]⟩) ∧
    wmi_init ⟨true, true, 0, 0, false, 0⟩ Platform.unloaded
      = (-ENOMEM, ⟨false, false, false, false,
          [PlatformCall.acpi_bus_register_driver, PlatformCall.platform_driver_register,
           PlatformCall.platform_device_alloc,
           PlatformCall.platform_driver_unregister,
           PlatformCall.acpi_bus_unregister_driver]⟩) ∧
    wmi_init ⟨true, false, 0, 0, true, -17⟩ Platform.unloaded
      = (-17, ⟨false, false, false, false,
          [PlatformCall.acpi_bus_register_driver, PlatformCall.platform_driver_register,
           PlatformCall.platform_device_alloc, PlatformCall.platform_device_add,
           PlatformCall.platform_device_put,
           PlatformCall.platform_driver_unregister,
           PlatformCall.acpi_bus_unregister_driver]⟩) :=
  ⟨(wmi_init_rollback ⟨false, false, 0, 0, true, 0⟩ InitStep.detect
      (by decide) (by decide)).1,
   (wmi_init_rollback ⟨true, false, -19, 0, true, 0⟩ InitStep.acpi_register
      (by decide) (by decide)).1,
   (wmi_init_rollback ⟨false, true, 0, -16, true, 0⟩ InitStep.driver_register
      (by decide) (by decide)).1,
   (wmi_init_rollback ⟨true, true, 0, 0, false, 0⟩ InitStep.device_alloc
      (by decide) (by decide)).1,
   (wmi_init_rollback ⟨true, false, 0, 0, true, -17⟩ InitStep.device_add
      (by decide) (by decide)).1⟩

end LinuxSense
